import Mathlib

/-!
Verification development for the IoT sensor simulator (src/iot_sender.py).

The simulator is shallowly embedded: floating-point values become rationals,
the per-call random draws become explicit inputs (CPython implements
random.uniform(a, b) as a + (b - a) * random() with random() in [0, 1), and
random.gauss draws an unbounded real, modelled as an unconstrained rational),
and the mutation of the per-device dictionaries becomes explicit state passing.
-/

namespace IotSender

/-- clamp(v, lo, hi) from the source: max(lo, min(hi, v)). -/
def clamp (v lo hi : ℚ) : ℚ := max lo (min hi v)

/-- Model of CPython random.uniform(a, b): a + (b - a) * r with r = random() in [0, 1). -/
def uniform (a b r : ℚ) : ℚ := a + (b - a) * r

/-- The six metric values of one device, used both for base and for state. -/
structure Metrics where
  temperature : ℚ
  humidity : ℚ
  co2 : ℚ
  no2 : ℚ
  pm25 : ℚ
  pm10 : ℚ
  deriving DecidableEq, Repr

/-- Pointwise predicate over the six metrics. -/
def Metrics.All (p : ℚ → Prop) (m : Metrics) : Prop :=
  p m.temperature ∧ p m.humidity ∧ p m.co2 ∧ p m.no2 ∧ p m.pm25 ∧ p m.pm10

/-- Pointwise order on the six metrics. -/
def Metrics.Le (m n : Metrics) : Prop :=
  m.temperature ≤ n.temperature ∧ m.humidity ≤ n.humidity ∧ m.co2 ≤ n.co2 ∧
    m.no2 ≤ n.no2 ∧ m.pm25 ≤ n.pm25 ∧ m.pm10 ≤ n.pm10

/-- One random() draw per metric for one call of apply_hourly_drift_for_device. -/
structure DriftDraws where
  temperature : ℚ
  humidity : ℚ
  co2 : ℚ
  no2 : ℚ
  pm25 : ℚ
  pm10 : ℚ
  deriving DecidableEq, Repr

/-- Pointwise predicate over the six drift draws. -/
def DriftDraws.All (p : ℚ → Prop) (r : DriftDraws) : Prop :=
  p r.temperature ∧ p r.humidity ∧ p r.co2 ∧ p r.no2 ∧ p r.pm25 ∧ p r.pm10

/-- Body of the per-key loop of apply_hourly_drift_for_device:
day mode uses change = b * 0.07 and uniform(-change, change),
night mode uses change = b * 0.05 and uniform(0, change); both clamp
to [-1000, 10000]. -/
def driftOne (is_daytime_flag : Bool) (b r : ℚ) : ℚ :=
  if is_daytime_flag then
    clamp (b + uniform (-(b * (7 / 100))) (b * (7 / 100)) r) (-1000) 10000
  else
    clamp (b - uniform 0 (b * (5 / 100)) r) (-1000) 10000

/-- apply_hourly_drift_for_device from the source, acting on the base metrics. -/
def apply_hourly_drift (is_daytime_flag : Bool) (b : Metrics) (r : DriftDraws) : Metrics where
  temperature := driftOne is_daytime_flag b.temperature r.temperature
  humidity := driftOne is_daytime_flag b.humidity r.humidity
  co2 := driftOne is_daytime_flag b.co2 r.co2
  no2 := driftOne is_daytime_flag b.no2 r.no2
  pm25 := driftOne is_daytime_flag b.pm25 r.pm25
  pm10 := driftOne is_daytime_flag b.pm10 r.pm10

/-- Round half to even on rationals, the tie-breaking rule of Python round. -/
def roundHalfEven (x : ℚ) : ℤ :=
  if 2 * (x - ⌊x⌋) = 1 then (if Even ⌊x⌋ then ⌊x⌋ else ⌊x⌋ + 1) else round x

/-- Python round(x, 2): round half to even at two decimal places. -/
def round2 (x : ℚ) : ℚ := (roundHalfEven (x * 100) : ℚ) / 100

-- Basic bounds lemmas shared by several claims.

theorem clamp_mem (v lo hi : ℚ) (h : lo ≤ hi) : lo ≤ clamp v lo hi ∧ clamp v lo hi ≤ hi :=
  ⟨le_max_left _ _, max_le h (min_le_left _ _)⟩

theorem round_mono {x y : ℚ} (h : x ≤ y) : round x ≤ round y := by
  rw [round_eq, round_eq]
  exact Int.floor_le_floor (by linarith)

theorem roundHalfEven_mem (y : ℚ) (a b : ℤ) (h1 : (a : ℚ) ≤ y) (h2 : y ≤ (b : ℚ)) :
    a ≤ roundHalfEven y ∧ roundHalfEven y ≤ b := by
  unfold roundHalfEven
  split
  · rename_i htie
    have hfl : (⌊y⌋ : ℚ) = y - 1 / 2 := by linarith
    have hla : a ≤ ⌊y⌋ := Int.le_floor.mpr h1
    have hlb : ⌊y⌋ < b := by
      have : (⌊y⌋ : ℚ) < (b : ℚ) := by rw [hfl]; linarith
      exact_mod_cast this
    split
    · exact ⟨hla, le_of_lt hlb⟩
    · exact ⟨le_trans hla (by omega), by omega⟩
  · constructor
    · have := round_mono h1
      rwa [round_intCast] at this
    · have := round_mono h2
      rwa [round_intCast] at this

theorem round2_mem (x : ℚ) (a b : ℤ) (h1 : (a : ℚ) ≤ x) (h2 : x ≤ (b : ℚ)) :
    (a : ℚ) ≤ round2 x ∧ round2 x ≤ (b : ℚ) := by
  have h1' : ((a * 100 : ℤ) : ℚ) ≤ x * 100 := by push_cast; linarith
  have h2' : x * 100 ≤ ((b * 100 : ℤ) : ℚ) := by push_cast; linarith
  obtain ⟨ha, hb⟩ := roundHalfEven_mem (x * 100) (a * 100) (b * 100) h1' h2'
  have ha' : ((a * 100 : ℤ) : ℚ) ≤ (roundHalfEven (x * 100) : ℚ) := by exact_mod_cast ha
  have hb' : ((roundHalfEven (x * 100) : ℤ) : ℚ) ≤ ((b * 100 : ℤ) : ℚ) := by exact_mod_cast hb
  unfold round2
  push_cast at ha' hb' ⊢
  constructor <;> linarith

theorem uniform_mem (a b r : ℚ) (hab : a ≤ b) (hr0 : 0 ≤ r) (hr1 : r < 1) :
    a ≤ uniform a b r ∧ uniform a b r ≤ b := by
  unfold uniform
  constructor
  · nlinarith
  · nlinarith

/-!
Regime classification (device_loop lines 157-166).

A wall-clock instant is a calendar day (whole days since some epoch) plus a
time of day in seconds, 0 ≤ tod < 86400; datetime comparison is comparison of
the absolute second count. now.replace(hour=h, minute=m, second=0,
microsecond=0) keeps the day and sets the time of day to h*3600 + m*60.
-/

/-- A wall-clock instant: calendar day plus time of day in seconds. -/
structure Instant where
  day : ℤ
  tod : ℚ
  deriving DecidableEq, Repr

/-- Absolute time of an instant, in seconds. -/
def Instant.abs (t : Instant) : ℚ := t.day * 86400 + t.tod

/-- activity_start: now.replace(hour=6, minute=30, second=0, microsecond=0),
with ACTIVITY_START_HOUR = 6 and ACTIVITY_START_MIN = 30. -/
def activity_start (now : Instant) : ℚ := now.day * 86400 + (6 * 3600 + 30 * 60)

/-- activity_end_dt: now.replace(hour=ae, minute=0, second=0, microsecond=0),
then += timedelta(days=1) when ae == 0. -/
def activity_end_dt (now : Instant) (ae : ℕ) : ℚ :=
  (now.day * 86400 + ae * 3600) + (if ae = 0 then 86400 else 0)

/-- is_effective_day = (now >= activity_start and now < activity_end_dt). -/
def is_effective_day (now : Instant) (ae : ℕ) : Bool :=
  decide (activity_start now ≤ now.abs) && decide (now.abs < activity_end_dt now ae)

/-- The four regime booleans computed once per tick. -/
structure Flags where
  is_after_sunset : Bool
  is_before_sunrise : Bool
  is_after_activity_end : Bool
  is_effective_day : Bool
  deriving DecidableEq, Repr

/-- Flag computation of device_loop lines 163-166: sunrise and sunset are the
local naive sun times for the current date, given as absolute seconds. -/
def computeFlags (now : Instant) (sunrise sunset : ℚ) (ae : ℕ) : Flags where
  is_after_sunset := decide (sunset ≤ now.abs)
  is_before_sunrise := decide (now.abs < sunrise)
  is_after_activity_end := decide (activity_end_dt now ae ≤ now.abs)
  is_effective_day := is_effective_day now ae

/-- Payload period field (device_loop line 217):
"night" if (is_after_sunset or is_before_sunrise) else "day". -/
def payloadPeriod (f : Flags) : String :=
  if f.is_after_sunset || f.is_before_sunrise then "night" else "day"

/-!
Hourly drift gating (device_loop lines 168-172). last_drift_hour starts as
None for every device; the drift fires when last_drift_hour != current hour
(in Python, None != h is true for every int h) and then last_drift_hour is set
to the current hour.
-/

/-- One pass of the drift gate: returns whether the drift fired and the new
last_drift_hour value. -/
def driftStep (last : Option ℕ) (h : ℕ) : Bool × Option ℕ :=
  if last ≠ some h then (true, some h) else (false, last)

/-- last_drift_hour after a sequence of tick hours. -/
def runLast (last : Option ℕ) : List ℕ → Option ℕ
  | [] => last
  | h :: hs => runLast (driftStep last h).2 hs

/-- The fired flag of each tick in a sequence of tick hours. -/
def driftFired (last : Option ℕ) : List ℕ → List Bool
  | [] => []
  | h :: hs => (driftStep last h).1 :: driftFired (driftStep last h).2 hs

/-!
Per-tick reading synthesis (device_loop lines 174-205).
-/

/-- The random draws consumed by one tick's synthesis step: one random() value
for each uniform call actually executed (r fields, in [0, 1)) and one
unbounded value for each random.gauss call (g fields). -/
structure TickDraws where
  r_temp : ℚ
  r_hum : ℚ
  r_mult : ℚ
  r_no2 : ℚ
  g_temp : ℚ
  g_hum : ℚ
  g_co2 : ℚ
  g_no2 : ℚ
  g_pm25 : ℚ
  g_pm10 : ℚ
  deriving DecidableEq, Repr

/-- temp_adj: uniform(-3.5, -0.5) when night, uniform(0.5, 2.5) otherwise. -/
def temp_adj (f : Flags) (r : ℚ) : ℚ :=
  if f.is_after_sunset || f.is_before_sunrise then uniform (-(7 / 2)) (-(1 / 2)) r
  else uniform (1 / 2) (5 / 2) r

/-- hum_adj: uniform(0.5, 4.0) when night, uniform(-3.0, -0.5) otherwise. -/
def hum_adj (f : Flags) (r : ℚ) : ℚ :=
  if f.is_after_sunset || f.is_before_sunrise then uniform (1 / 2) 4 r
  else uniform (-3) (-(1 / 2)) r

/-- pollutant_multiplier: uniform(0.75, 0.9) when after activity end or before
sunrise, uniform(0.98, 1.08) otherwise. -/
def pollutant_multiplier (f : Flags) (r : ℚ) : ℚ :=
  if f.is_after_activity_end || f.is_before_sunrise then uniform (3 / 4) (9 / 10) r
  else uniform (49 / 50) (27 / 25) r

/-- no2_adj: uniform(-6.0, -1.0) when after activity end or before sunrise,
otherwise uniform(2.0, 10.0) when effective day else uniform(-1.0, 2.0). -/
def no2_adj (f : Flags) (r : ℚ) : ℚ :=
  if f.is_after_activity_end || f.is_before_sunrise then uniform (-6) (-1) r
  else if f.is_effective_day then uniform 2 10 r else uniform (-1) 2 r

/-- The synthesis step, lines 191-205: perturb the base metrics, clamp, round
to two decimals, and produce the values stored into state. -/
def synthesize (base : Metrics) (f : Flags) (d : TickDraws) : Metrics :=
  let m := pollutant_multiplier f d.r_mult
  { temperature := round2 (clamp (base.temperature + temp_adj f d.r_temp + d.g_temp) (-50) 70)
    humidity := round2 (clamp (base.humidity + hum_adj f d.r_hum + d.g_hum) 0 100)
    co2 := round2 (clamp (base.co2 * m + d.g_co2) 150 5000)
    no2 := round2 (clamp ((base.no2 + no2_adj f d.r_no2) * m + d.g_no2) 0 2000)
    pm25 := round2 (clamp (base.pm25 * m + d.g_pm25) 0 2000)
    pm10 := round2 (clamp (base.pm10 * m + d.g_pm10) 0 5000) }

/-!
One simulation tick over the mutable per-device state.
-/

/-- The mutable per-device record: base, state, and the device's
last_drift_hour entry. -/
structure DeviceSimState where
  base : Metrics
  state : Metrics
  lastDriftHour : Option ℕ
  deriving DecidableEq, Repr

/-- The random draws consumed by one tick. -/
structure TickRandom where
  drift : DriftDraws
  synth : TickDraws
  deriving DecidableEq, Repr

/-- One tick of device_loop over the per-device state: drift gate, then
synthesis from the (post-drift) base into state. -/
def tickSim (st : DeviceSimState) (hour : ℕ) (f : Flags) (rnd : TickRandom) : DeviceSimState :=
  let fired := (driftStep st.lastDriftHour hour).1
  let base1 := if fired then apply_hourly_drift f.is_effective_day st.base rnd.drift else st.base
  { base := base1
    state := synthesize base1 f rnd.synth
    lastDriftHour := (driftStep st.lastDriftHour hour).2 }

/-!
Sink phase of one tick (device_loop lines 225-233): a single try block holds
the publish (client.send_message, executed only when a client exists) followed
by log_payload; the except clause prints and the loop falls through to the
sleep, continuing with the next tick.
-/

/-- Observable outcome of one tick's sink phase. -/
structure SinkOutcome where
  published : Bool
  logged : Bool
  continues : Bool
  deriving DecidableEq, Repr

/-- sinkPhase hasClient publishRaises: whether the publish succeeded, whether
log_payload was reached, and whether the loop continues to the next tick. -/
def sinkPhase (hasClient publishRaises : Bool) : SinkOutcome :=
  if hasClient then
    if publishRaises then { published := false, logged := false, continues := true }
    else { published := true, logged := true, continues := true }
  else { published := false, logged := true, continues := true }

/-!
Region entry loading (lines 97-108): base = {k: float(r[k]) for the six
metrics}, lat = float(r["lat"]), lon = float(r["lon"]) — a missing key raises
an uncaught KeyError, fatal at startup — while activity_end uses
int(r.get("activity_end", 22)), defaulting silently to 22.
-/

/-- A raw region entry as read from regions.json: every field may be absent. -/
structure RegionJson where
  lat : Option ℚ
  lon : Option ℚ
  activity_end : Option ℤ
  temperature : Option ℚ
  humidity : Option ℚ
  co2 : Option ℚ
  no2 : Option ℚ
  pm25 : Option ℚ
  pm10 : Option ℚ
  deriving DecidableEq, Repr

/-- One runtime entry built from a region entry. -/
structure RuntimeEntry where
  base : Metrics
  state : Metrics
  lat : ℚ
  lon : ℚ
  activity_end : ℤ
  deriving DecidableEq, Repr

/-- Dictionary access r[k]: a missing key is a fatal KeyError, modelled as an
error carrying the key name. -/
def requireKey {α : Type} (key : String) (v : Option α) : Except String α :=
  match v with
  | some x => Except.ok x
  | none => Except.error key

/-- Construction of one runtime entry (lines 100-108): the six baseline
metrics and lat/lon are required; activity_end defaults to 22. -/
def loadEntry (r : RegionJson) : Except String RuntimeEntry := do
  let t ← requireKey "temperature" r.temperature
  let hu ← requireKey "humidity" r.humidity
  let c ← requireKey "co2" r.co2
  let n ← requireKey "no2" r.no2
  let p25 ← requireKey "pm25" r.pm25
  let p10 ← requireKey "pm10" r.pm10
  let la ← requireKey "lat" r.lat
  let longitude ← requireKey "lon" r.lon
  let base : Metrics := ⟨t, hu, c, n, p25, p10⟩
  pure { base := base, state := base, lat := la, lon := longitude,
         activity_end := r.activity_end.getD 22 }

/-!
Sample values used by witness statements.
-/

/-- A sample baseline (the spec's round-trip fixture). -/
def sampleBase : Metrics := ⟨20, 50, 400, 30, 10, 20⟩

/-- A sample state differing from sampleBase in every metric. -/
def sampleState : Metrics := ⟨21, 49, 410, 31, 11, 21⟩

/-- Sample drift draws, all at the midpoint. -/
def sampleDrift : DriftDraws := ⟨1 / 2, 1 / 2, 1 / 2, 1 / 2, 1 / 2, 1 / 2⟩

/-- Sample tick draws: midpoint uniforms, zero gaussians. -/
def sampleTick : TickDraws := ⟨1 / 2, 1 / 2, 1 / 2, 1 / 2, 0, 0, 0, 0, 0, 0⟩

/-- Sample flags: effective day, no night, activity not ended. -/
def sampleFlags : Flags := ⟨false, false, false, true⟩

/-- Sample tick randomness. -/
def sampleRandom : TickRandom := ⟨sampleDrift, sampleTick⟩

-- Night-mode drift on one key never increases a nonnegative baseline value.

theorem driftOne_night_le (b r : ℚ) (hb0 : 0 ≤ b) (_hb1 : b ≤ 10000)
    (hr0 : 0 ≤ r) (_hr1 : r < 1) : driftOne false b r ≤ b := by
  unfold driftOne clamp uniform
  simp only [Bool.false_eq_true, if_false]
  have hu : 0 ≤ (b * (5 / 100) - 0) * r := mul_nonneg (by linarith) hr0
  exact max_le (by linarith) (le_trans (min_le_right _ _) (by linarith))

/-- C2 counterexample: at baseline value -100 (inside the claimed range
[-1000, 10000]) and the valid random() draw 1/2, the night-mode drift step
raises the temperature baseline from -100 to -97.5, so the post-drift value
is not ≤ the pre-drift value. -/
theorem c2_night_drift_counterexample :
    ((-1000 : ℚ) ≤ -100 ∧ (-100 : ℚ) ≤ 10000) ∧ ((0 : ℚ) ≤ 1 / 2 ∧ (1 / 2 : ℚ) < 1) ∧
    ¬ ((apply_hourly_drift false ⟨-100, -100, -100, -100, -100, -100⟩
        ⟨1 / 2, 1 / 2, 1 / 2, 1 / 2, 1 / 2, 1 / 2⟩).temperature ≤ -100) := by
  refine ⟨by norm_num, by norm_num, ?_⟩
  norm_num [apply_hourly_drift, driftOne, uniform, clamp]

/-- C2 (amended): for every metric key, every pre-drift baseline value in
[0, 10000], and every random draw, the night-mode hourly drift step never
increases that baseline value. -/
theorem night_drift_never_increases (b : Metrics) (r : DriftDraws)
    (hb : b.All fun x => 0 ≤ x ∧ x ≤ 10000)
    (hr : r.All fun x => 0 ≤ x ∧ x < 1) :
    (apply_hourly_drift false b r).Le b := by
  obtain ⟨hb1, hb2, hb3, hb4, hb5, hb6⟩ := hb
  obtain ⟨hr1, hr2, hr3, hr4, hr5, hr6⟩ := hr
  exact ⟨driftOne_night_le _ _ hb1.1 hb1.2 hr1.1 hr1.2,
    driftOne_night_le _ _ hb2.1 hb2.2 hr2.1 hr2.2,
    driftOne_night_le _ _ hb3.1 hb3.2 hr3.1 hr3.2,
    driftOne_night_le _ _ hb4.1 hb4.2 hr4.1 hr4.2,
    driftOne_night_le _ _ hb5.1 hb5.2 hr5.1 hr5.2,
    driftOne_night_le _ _ hb6.1 hb6.2 hr6.1 hr6.2⟩

/-- Witness for the amended C2 at a concrete baseline and draw. -/
theorem night_drift_never_increases_witness :
    (sampleBase.All fun x => 0 ≤ x ∧ x ≤ 10000) ∧
    (sampleDrift.All fun x => 0 ≤ x ∧ x < 1) ∧
    (apply_hourly_drift false sampleBase sampleDrift).Le sampleBase :=
  ⟨by norm_num [Metrics.All, sampleBase], by norm_num [DriftDraws.All, sampleDrift],
    night_drift_never_increases sampleBase sampleDrift
      (by norm_num [Metrics.All, sampleBase]) (by norm_num [DriftDraws.All, sampleDrift])⟩

-- Clamped then rounded values stay inside integer bounds.

theorem round2_clamp_mem (v : ℚ) (a b : ℤ) (h : (a : ℚ) ≤ (b : ℚ)) :
    (a : ℚ) ≤ round2 (clamp v a b) ∧ round2 (clamp v a b) ≤ (b : ℚ) := by
  obtain ⟨h1, h2⟩ := clamp_mem v a b h
  exact round2_mem _ a b h1 h2

/-- C3: for every baseline, every regime-flag combination, and every random
draw, each synthesized and rounded reading stored into state lies within its
stated clamp bounds: temperature in [-50, 70], humidity in [0, 100], co2 in
[150, 5000], no2 in [0, 2000], pm25 in [0, 2000], pm10 in [0, 5000]. -/
theorem synthesized_readings_in_bounds (base : Metrics) (f : Flags) (d : TickDraws) :
    ((-50 : ℚ) ≤ (synthesize base f d).temperature ∧ (synthesize base f d).temperature ≤ 70) ∧
    ((0 : ℚ) ≤ (synthesize base f d).humidity ∧ (synthesize base f d).humidity ≤ 100) ∧
    ((150 : ℚ) ≤ (synthesize base f d).co2 ∧ (synthesize base f d).co2 ≤ 5000) ∧
    ((0 : ℚ) ≤ (synthesize base f d).no2 ∧ (synthesize base f d).no2 ≤ 2000) ∧
    ((0 : ℚ) ≤ (synthesize base f d).pm25 ∧ (synthesize base f d).pm25 ≤ 2000) ∧
    ((0 : ℚ) ≤ (synthesize base f d).pm10 ∧ (synthesize base f d).pm10 ≤ 5000) := by
  refine ⟨?_, ?_, ?_, ?_, ?_, ?_⟩
  · have h := round2_clamp_mem (base.temperature + temp_adj f d.r_temp + d.g_temp)
      (-50) 70 (by norm_num)
    push_cast at h
    simpa [synthesize] using h
  · have h := round2_clamp_mem (base.humidity + hum_adj f d.r_hum + d.g_hum)
      0 100 (by norm_num)
    push_cast at h
    simpa [synthesize] using h
  · have h := round2_clamp_mem (base.co2 * pollutant_multiplier f d.r_mult + d.g_co2)
      150 5000 (by norm_num)
    push_cast at h
    simpa [synthesize] using h
  · have h := round2_clamp_mem
      ((base.no2 + no2_adj f d.r_no2) * pollutant_multiplier f d.r_mult + d.g_no2)
      0 2000 (by norm_num)
    push_cast at h
    simpa [synthesize] using h
  · have h := round2_clamp_mem (base.pm25 * pollutant_multiplier f d.r_mult + d.g_pm25)
      0 2000 (by norm_num)
    push_cast at h
    simpa [synthesize] using h
  · have h := round2_clamp_mem (base.pm10 * pollutant_multiplier f d.r_mult + d.g_pm10)
      0 5000 (by norm_num)
    push_cast at h
    simpa [synthesize] using h

/-- C4: is_effective_day is true iff now is at or after today 06:30:00
(tod 23400 s) and strictly before the activity-end instant, which is today at
ae:00:00 except that ae = 0 yields midnight of the next calendar day; in
particular for ae = 0 and now = 23:30 the flag is true. -/
theorem effective_day_iff (now : Instant) (ae : ℕ) (_hae : ae ≤ 23)
    (_h0 : 0 ≤ now.tod) (h1 : now.tod < 86400) :
    (is_effective_day now ae = true ↔
      (23400 ≤ now.tod ∧ now.tod < (if ae = 0 then 86400 else (ae : ℚ) * 3600))) ∧
    is_effective_day { day := now.day, tod := 23 * 3600 + 30 * 60 } 0 = true := by
  constructor
  · simp only [is_effective_day, activity_start, activity_end_dt, Instant.abs,
      Bool.and_eq_true, decide_eq_true_eq]
    constructor
    · rintro ⟨ha, hb⟩
      refine ⟨by linarith, ?_⟩
      split at hb <;> rename_i hz
      · simp only [hz, if_true]
        push_cast [hz] at hb ⊢
        linarith
      · simp only [hz, if_false]
        linarith
    · rintro ⟨ha, hb⟩
      refine ⟨by linarith, ?_⟩
      split at hb <;> rename_i hz
      · simp only [hz]
        push_cast [hz]
        linarith
      · simp only [hz, if_false]
        linarith
  · norm_num [is_effective_day, activity_start, activity_end_dt, Instant.abs]

/-- Witness for C4 at a concrete instant (tod 50000 s, i.e. 13:53:20) and
activity-end hour 22. -/
theorem effective_day_iff_witness :
    (22 ≤ 23 ∧ (0 : ℚ) ≤ 50000 ∧ (50000 : ℚ) < 86400) ∧
    ((is_effective_day ⟨0, 50000⟩ 22 = true ↔
      (23400 ≤ (50000 : ℚ) ∧ (50000 : ℚ) <
        (if (22 : ℕ) = 0 then 86400 else ((22 : ℕ) : ℚ) * 3600))) ∧
    is_effective_day { day := 0, tod := 23 * 3600 + 30 * 60 } 0 = true) :=
  ⟨by norm_num, effective_day_iff ⟨0, 50000⟩ 22 (by norm_num) (by norm_num) (by norm_num)⟩

-- Lemmas for the drift gate trace.

theorem driftStep_snd (last : Option ℕ) (h : ℕ) : (driftStep last h).2 = some h := by
  unfold driftStep
  split
  · rfl
  · rename_i hne
    simp only [ne_eq, not_not] at hne
    simp [hne]

theorem runLast_append (last : Option ℕ) (xs ys : List ℕ) :
    runLast last (xs ++ ys) = runLast (runLast last xs) ys := by
  induction xs generalizing last with
  | nil => rfl
  | cons a l ih => simp only [List.cons_append, runLast, List.append_eq, ih]

theorem runLast_const (h : ℕ) (mid : List ℕ) (hmid : ∀ x ∈ mid, x = h) :
    runLast (some h) mid = some h := by
  induction mid with
  | nil => rfl
  | cons a l ih =>
    have ha : a = h := hmid a (List.mem_cons_self a l)
    simp only [runLast, driftStep_snd, ha]
    exact ih fun x hx => hmid x (List.mem_cons_of_mem a hx)

theorem driftFired_append (last : Option ℕ) (xs ys : List ℕ) :
    driftFired last (xs ++ ys) = driftFired last xs ++ driftFired (runLast last xs) ys := by
  induction xs generalizing last with
  | nil => rfl
  | cons a l ih => simp only [List.cons_append, driftFired, runLast, List.append_eq, ih]

theorem driftFired_length (last : Option ℕ) (xs : List ℕ) :
    (driftFired last xs).length = xs.length := by
  induction xs generalizing last with
  | nil => rfl
  | cons a l ih => simp only [driftFired, List.length_cons, ih]

/-- C5: the drift fires on a tick exactly when the tick's hour differs from
the recorded last_drift_hour; last_drift_hour is then set to that hour; and
for any trace in which a tick with hour h is followed, after only ticks whose
hour is still h, by another tick with hour h, the drift does not fire on that
later tick — it never fires twice for the same hour without an intervening
hour change. -/
theorem hourly_drift_once (last : Option ℕ) (pre mid post : List ℕ) (h : ℕ)
    (hmid : ∀ x ∈ mid, x = h) :
    ((driftStep last h).1 = true ↔ last ≠ some h) ∧
    (driftStep last h).2 = some h ∧
    (driftFired last ((pre ++ h :: mid) ++ h :: post))[(pre ++ h :: mid).length]?
      = some false := by
  refine ⟨?_, driftStep_snd last h, ?_⟩
  · unfold driftStep
    split <;> simp_all
  · rw [driftFired_append, List.getElem?_append_right (by rw [driftFired_length]),
      driftFired_length]
    simp only [Nat.sub_self]
    have hrun : runLast last (pre ++ h :: mid) = some h := by
      rw [runLast_append]
      show runLast (runLast last pre) (h :: mid) = some h
      simp only [runLast, driftStep_snd]
      exact runLast_const h mid hmid
    rw [hrun]
    show ((driftStep (some h) h).1 :: driftFired (driftStep (some h) h).2 post)[0]? = some false
    simp [driftStep]

/-- Witness for C5 on the concrete trace [1, 2, 2, 2, 3] starting from an
unset last_drift_hour. -/
theorem hourly_drift_once_witness :
    (∀ x ∈ [2], x = 2) ∧
    (((driftStep none 2).1 = true ↔ none ≠ some 2) ∧
    (driftStep none 2).2 = some 2 ∧
    (driftFired none (([1] ++ 2 :: [2]) ++ 2 :: [3]))[([1] ++ 2 :: [2]).length]?
      = some false) :=
  ⟨by decide, hourly_drift_once none [1] [2] [3] 2 (by decide)⟩

/-- C6: the payload period field is "night" exactly when now is strictly
before sunrise or at/after sunset, and the period produced from any flag
record depends only on is_after_sunset and is_before_sunrise — it is
independent of is_effective_day (and of is_after_activity_end). -/
theorem period_night_iff (now : Instant) (sunrise sunset : ℚ) (ae : ℕ)
    (s r b1 b2 e1 e2 : Bool) :
    (payloadPeriod (computeFlags now sunrise sunset ae) = "night" ↔
      (now.abs < sunrise ∨ sunset ≤ now.abs)) ∧
    payloadPeriod ⟨s, r, b1, e1⟩ = payloadPeriod ⟨s, r, b2, e2⟩ := by
  constructor
  · simp only [payloadPeriod, computeFlags, Bool.or_eq_true, decide_eq_true_eq]
    split
    · rename_i hc
      exact ⟨fun _ => Or.symm hc, fun _ => rfl⟩
    · rename_i hc
      constructor
      · intro hcontra
        exact absurd hcontra (by decide)
      · intro hor
        exact absurd (Or.symm hor) hc
  · rfl

/-- C7: two states that agree on base and lastDriftHour but differ in current
state produce identical post-tick base and state (synthesis reads only the
baseline); the tick's base is produced by the drift gate alone; and the stored
state is the synthesis of the post-drift base (the synthesis step never
mutates the baseline). -/
theorem synthesis_frame (st1 st2 : DeviceSimState) (hour : ℕ) (f : Flags) (rnd : TickRandom)
    (hb : st1.base = st2.base) (hl : st1.lastDriftHour = st2.lastDriftHour) :
    ((tickSim st1 hour f rnd).base = (tickSim st2 hour f rnd).base ∧
      (tickSim st1 hour f rnd).state = (tickSim st2 hour f rnd).state) ∧
    (tickSim st1 hour f rnd).base =
      (if (driftStep st1.lastDriftHour hour).1 then
        apply_hourly_drift f.is_effective_day st1.base rnd.drift else st1.base) ∧
    (tickSim st1 hour f rnd).state =
      synthesize (tickSim st1 hour f rnd).base f rnd.synth := by
  simp [tickSim, hb, hl]

/-- Witness for C7: two concrete states sharing base and lastDriftHour but
with different current state. -/
theorem synthesis_frame_witness :
    ((⟨sampleBase, sampleState, none⟩ : DeviceSimState).base =
        (⟨sampleBase, sampleBase, none⟩ : DeviceSimState).base ∧
      (⟨sampleBase, sampleState, none⟩ : DeviceSimState).lastDriftHour =
        (⟨sampleBase, sampleBase, none⟩ : DeviceSimState).lastDriftHour) ∧
    (((tickSim ⟨sampleBase, sampleState, none⟩ 10 sampleFlags sampleRandom).base =
        (tickSim ⟨sampleBase, sampleBase, none⟩ 10 sampleFlags sampleRandom).base ∧
      (tickSim ⟨sampleBase, sampleState, none⟩ 10 sampleFlags sampleRandom).state =
        (tickSim ⟨sampleBase, sampleBase, none⟩ 10 sampleFlags sampleRandom).state) ∧
    (tickSim ⟨sampleBase, sampleState, none⟩ 10 sampleFlags sampleRandom).base =
      (if (driftStep (⟨sampleBase, sampleState, none⟩ : DeviceSimState).lastDriftHour 10).1 then
        apply_hourly_drift sampleFlags.is_effective_day
          (⟨sampleBase, sampleState, none⟩ : DeviceSimState).base sampleRandom.drift
      else (⟨sampleBase, sampleState, none⟩ : DeviceSimState).base) ∧
    (tickSim ⟨sampleBase, sampleState, none⟩ 10 sampleFlags sampleRandom).state =
      synthesize (tickSim ⟨sampleBase, sampleState, none⟩ 10 sampleFlags sampleRandom).base
        sampleFlags sampleRandom.synth) :=
  ⟨⟨rfl, rfl⟩, synthesis_frame ⟨sampleBase, sampleState, none⟩ ⟨sampleBase, sampleBase, none⟩
    10 sampleFlags sampleRandom rfl rfl⟩

/-- C8: in the quiet period (after activity end or before sunrise) the
pollutant multiplier lies in [0.75, 0.9] and the NO2 offset in [-6, -1];
otherwise the multiplier lies in [0.98, 1.08] and the NO2 offset in [2, 10]
when the day is effective and in [-1, 2] when it is not. -/
theorem pollutant_regime_ranges (f : Flags) (rm rn : ℚ)
    (hm0 : 0 ≤ rm) (hm1 : rm < 1) (hn0 : 0 ≤ rn) (hn1 : rn < 1) :
    ((f.is_after_activity_end || f.is_before_sunrise) = true →
      (3 / 4 ≤ pollutant_multiplier f rm ∧ pollutant_multiplier f rm ≤ 9 / 10 ∧
        (-6 : ℚ) ≤ no2_adj f rn ∧ no2_adj f rn ≤ -1)) ∧
    ((f.is_after_activity_end || f.is_before_sunrise) = false →
      (49 / 50 ≤ pollutant_multiplier f rm ∧ pollutant_multiplier f rm ≤ 27 / 25 ∧
        (f.is_effective_day = true → 2 ≤ no2_adj f rn ∧ no2_adj f rn ≤ 10) ∧
        (f.is_effective_day = false → (-1 : ℚ) ≤ no2_adj f rn ∧ no2_adj f rn ≤ 2))) := by
  constructor
  · intro hq
    simp only [pollutant_multiplier, no2_adj, hq, if_true]
    obtain ⟨a1, a2⟩ := uniform_mem (3 / 4) (9 / 10) rm (by norm_num) hm0 hm1
    obtain ⟨b1, b2⟩ := uniform_mem (-6) (-1) rn (by norm_num) hn0 hn1
    exact ⟨a1, a2, b1, b2⟩
  · intro hq
    simp only [pollutant_multiplier, no2_adj, hq, Bool.false_eq_true, if_false]
    obtain ⟨a1, a2⟩ := uniform_mem (49 / 50) (27 / 25) rm (by norm_num) hm0 hm1
    refine ⟨a1, a2, ?_, ?_⟩
    · intro he
      simp only [he, if_true]
      exact uniform_mem 2 10 rn (by norm_num) hn0 hn1
    · intro he
      simp only [he, Bool.false_eq_true, if_false]
      exact uniform_mem (-1) 2 rn (by norm_num) hn0 hn1

/-- Witness for C8 with quiet-period flags and midpoint draws. -/
theorem pollutant_regime_ranges_witness :
    ((0 : ℚ) ≤ 1 / 2 ∧ (1 / 2 : ℚ) < 1) ∧
    ((((⟨false, true, true, false⟩ : Flags).is_after_activity_end ||
        (⟨false, true, true, false⟩ : Flags).is_before_sunrise) = true →
      (3 / 4 ≤ pollutant_multiplier ⟨false, true, true, false⟩ (1 / 2) ∧
        pollutant_multiplier ⟨false, true, true, false⟩ (1 / 2) ≤ 9 / 10 ∧
        (-6 : ℚ) ≤ no2_adj ⟨false, true, true, false⟩ (1 / 2) ∧
        no2_adj ⟨false, true, true, false⟩ (1 / 2) ≤ -1)) ∧
    (((⟨false, true, true, false⟩ : Flags).is_after_activity_end ||
        (⟨false, true, true, false⟩ : Flags).is_before_sunrise) = false →
      (49 / 50 ≤ pollutant_multiplier ⟨false, true, true, false⟩ (1 / 2) ∧
        pollutant_multiplier ⟨false, true, true, false⟩ (1 / 2) ≤ 27 / 25 ∧
        ((⟨false, true, true, false⟩ : Flags).is_effective_day = true →
          2 ≤ no2_adj ⟨false, true, true, false⟩ (1 / 2) ∧
            no2_adj ⟨false, true, true, false⟩ (1 / 2) ≤ 10) ∧
        ((⟨false, true, true, false⟩ : Flags).is_effective_day = false →
          (-1 : ℚ) ≤ no2_adj ⟨false, true, true, false⟩ (1 / 2) ∧
            no2_adj ⟨false, true, true, false⟩ (1 / 2) ≤ 2)))) :=
  ⟨by norm_num, pollutant_regime_ranges ⟨false, true, true, false⟩ (1 / 2) (1 / 2)
    (by norm_num) (by norm_num) (by norm_num) (by norm_num)⟩

/-- C9: on a device's very first tick the drift gate always fires, the
baseline handed to synthesis is the drifted one, and lastDriftHour is set to
the current hour — because lastDriftHour starts as None, which differs from
every hour value. -/
theorem first_tick_always_drifts (st : DeviceSimState) (hour : ℕ) (f : Flags)
    (rnd : TickRandom) (h0 : st.lastDriftHour = none) :
    (driftStep st.lastDriftHour hour).1 = true ∧
    (tickSim st hour f rnd).base = apply_hourly_drift f.is_effective_day st.base rnd.drift ∧
    (tickSim st hour f rnd).state =
      synthesize (apply_hourly_drift f.is_effective_day st.base rnd.drift) f rnd.synth ∧
    (tickSim st hour f rnd).lastDriftHour = some hour := by
  have hstep : driftStep (none : Option ℕ) hour = (true, some hour) := by
    simp [driftStep]
  simp [tickSim, h0, hstep]

/-- Witness for C9 at a concrete freshly initialised state. -/
theorem first_tick_always_drifts_witness :
    ((⟨sampleBase, sampleBase, none⟩ : DeviceSimState).lastDriftHour = none) ∧
    ((driftStep (⟨sampleBase, sampleBase, none⟩ : DeviceSimState).lastDriftHour 10).1 = true ∧
    (tickSim ⟨sampleBase, sampleBase, none⟩ 10 sampleFlags sampleRandom).base =
      apply_hourly_drift sampleFlags.is_effective_day
        (⟨sampleBase, sampleBase, none⟩ : DeviceSimState).base sampleRandom.drift ∧
    (tickSim ⟨sampleBase, sampleBase, none⟩ 10 sampleFlags sampleRandom).state =
      synthesize (apply_hourly_drift sampleFlags.is_effective_day
        (⟨sampleBase, sampleBase, none⟩ : DeviceSimState).base sampleRandom.drift)
        sampleFlags sampleRandom.synth ∧
    (tickSim ⟨sampleBase, sampleBase, none⟩ 10 sampleFlags sampleRandom).lastDriftHour =
      some 10) :=
  ⟨rfl, first_tick_always_drifts ⟨sampleBase, sampleBase, none⟩ 10 sampleFlags
    sampleRandom rfl⟩

/-- A region entry with every field present: helper for claims about loading.
Field order matches RegionJson: lat, lon, activity_end, then the six metrics. -/
def fullRegion (t hu c n p25 p10 la longitude : ℚ) (ae : ℤ) : RegionJson :=
  ⟨some la, some longitude, some ae, some t, some hu, some c, some n, some p25, some p10⟩

/-- C10: a region entry that lacks activity_end loads successfully and its
activity-end hour defaults to 22, while removing lat, lon, or any of the six
baseline metrics makes loading fail with the missing key. -/
theorem activity_end_defaults (t hu c n p25 p10 la longitude : ℚ) (ae : ℤ) :
    loadEntry { fullRegion t hu c n p25 p10 la longitude ae with activity_end := none } =
      Except.ok ⟨⟨t, hu, c, n, p25, p10⟩, ⟨t, hu, c, n, p25, p10⟩, la, longitude, 22⟩ ∧
    loadEntry { fullRegion t hu c n p25 p10 la longitude ae with lat := none } =
      Except.error "lat" ∧
    loadEntry { fullRegion t hu c n p25 p10 la longitude ae with lon := none } =
      Except.error "lon" ∧
    loadEntry { fullRegion t hu c n p25 p10 la longitude ae with temperature := none } =
      Except.error "temperature" ∧
    loadEntry { fullRegion t hu c n p25 p10 la longitude ae with humidity := none } =
      Except.error "humidity" ∧
    loadEntry { fullRegion t hu c n p25 p10 la longitude ae with co2 := none } =
      Except.error "co2" ∧
    loadEntry { fullRegion t hu c n p25 p10 la longitude ae with no2 := none } =
      Except.error "no2" ∧
    loadEntry { fullRegion t hu c n p25 p10 la longitude ae with pm25 := none } =
      Except.error "pm25" ∧
    loadEntry { fullRegion t hu c n p25 p10 la longitude ae with pm10 := none } =
      Except.error "pm10" :=
  ⟨rfl, rfl, rfl, rfl, rfl, rfl, rfl, rfl, rfl⟩

/-- C1 (evaluation at the failing input): when a client exists and the publish
raises, the sink phase of the tick continues to the next tick but log_payload
is never reached — the publish failure suppresses the local log write, because
log_payload sits inside the same try block after send_message — while a
successful publish does reach it. -/
theorem publish_failure_skips_log :
    (sinkPhase true true).continues = true ∧ (sinkPhase true true).published = false ∧
    (sinkPhase true true).logged = false ∧ (sinkPhase true false).logged = true := by
  decide

end IotSender
